import Mathlib

/-!
Verification development for the `data_harbour` ingestion-and-reconciliation
core (`src/logic.py`, `src/app.py`).

The Python core is shallowly embedded:

* a CSV file on disk is a list of raw rows (each a list of cell strings);
* a pandas `DataFrame` is a `Table`: a list of column names plus rows of
  nullable string cells (`pd.read_csv(dtype=str)` turns every cell into an
  optional string, empty fields becoming null);
* a sqlite product database is a `Store` holding the optional `disbursed`
  and `collection` tables plus the `queries` audit rows;
* the working directory full of `{PRODUCT}.db` files is `Stores`, an
  association list from product code to `Store` in discovery order;
* fallible operations return `Except`, with the state threaded explicitly.

External services (pandas CSV parsing, `pd.to_datetime`, sqlite) are
modelled by executable Lean functions whose doc comments state exactly
which behaviour of the external library they capture.
-/

namespace DataHarbour

/-- Configuration consumed from the environment by `src/logic.py`
(`TARGET_COLUMN`, `CASE_SENSITIVE`, `DISPLAY_COLUMNS`), modelled as an
explicit value: the identity-token column name, the case-sensitivity flag,
and the normalized display column list. -/
structure Config where
  target : String
  caseSensitive : Bool
  display : List String
  deriving DecidableEq, Repr

/-- Constant `LEAD_ID_COL` of `src/logic.py`. -/
def LEAD_ID_COL : String := "LeadID"

/-- Constant `REPAYMENT_DATE_COL` of `src/logic.py`. -/
def REPAYMENT_DATE_COL : String := "RepayDate"

/-- Constant `COLLECTION_DATE_COL` of `src/logic.py`. -/
def COLLECTION_DATE_COL : String := "CollectedDate"

/-- Constant `LOAN_NO_COL` of `src/logic.py`. -/
def LOAN_NO_COL : String := "LoanNo"

/-- Constant `INT_LEAD_ID` of `src/logic.py`. -/
def INT_LEAD_ID : String := "__lead_id"

/-- Constant `INT_REPAY_DATE` of `src/logic.py`. -/
def INT_REPAY_DATE : String := "__repay_date"

/-- Constant `INT_COLLECTION_DATE` of `src/logic.py`. -/
def INT_COLLECTION_DATE : String := "__collection_date"

/-- Constant `GRACE_DAYS = 3` of `src/logic.py`. -/
def GRACE_DAYS : Int := 3

/-- Python `str.strip()`: drop leading and trailing whitespace. Stated on
the character list so that it evaluates by kernel reduction. -/
def pyStrip (s : String) : String :=
  String.mk
    (((s.data.dropWhile Char.isWhitespace).reverse.dropWhile
        Char.isWhitespace).reverse)

/-- Python `str.replace(" ", "")`: remove every space character. -/
def pyRemoveSpaces (s : String) : String :=
  String.mk (s.data.filter (fun c => !(c = ' ')))

/-- Python `str.upper()` restricted to ASCII, as applied to product
codes. -/
def pyUpper (s : String) : String := String.mk (s.data.map Char.toUpper)

/-- Python `str.lower()` restricted to ASCII, as applied by
`LOWER(...)` in the case-insensitive SQL filter. -/
def pyLower (s : String) : String := String.mk (s.data.map Char.toLower)

/-- Python slicing `s[:n]`: the first `n` characters. -/
def pyTake (s : String) (n : Nat) : String := String.mk (s.data.take n)

/-- A nullable cell of a `DataFrame` read with `dtype=str`. -/
abbrev Cell := Option String

/-- A raw CSV file: the ordered rows, each an ordered list of cell strings. -/
abbrev CSV := List (List String)

/-- A pandas `DataFrame` of strings: ordered column names plus rows of
nullable cells. Rows shorter than the header are padded with nulls at
parse time; cells are addressed positionally via the column index. -/
structure Table where
  cols : List String
  rows : List (List Cell)
  deriving DecidableEq, Repr

/-- Header normalization of `normalize_headers` in `src/logic.py` applied
to one column name: `str.strip()` then `str.replace(" ", "")`. -/
def normalizeHeader (s : String) : String := pyRemoveSpaces (pyStrip s)

/-- The function `normalize_headers` of `src/logic.py`: normalize every
column name of a table, leaving the data untouched. -/
def normalize_headers (t : Table) : Table :=
  { t with cols := t.cols.map normalizeHeader }

/-- Pad a raw CSV row to the header width `w`: cells are read as nullable
strings (an empty field becomes null, as `pd.read_csv(dtype=str)` yields
`NaN` for empty fields) and missing trailing fields become null. -/
def padCells (w : Nat) (r : List String) : List Cell :=
  (r.map fun s => if s = "" then none else some s) ++
    List.replicate (w - r.length) none

/-- Model of one `pd.read_csv(path, dtype=str, skiprows=k, nrows=?)` call:
skip `k` leading rows, take the next row as the header, and read (at most
`nrows`, when given) data rows. Returns `none` where pandas raises: on an
empty parse (no header row left) and on a data row with more fields than
the header (tokenization error). Short rows are padded with nulls. The
implicit-index heuristic pandas applies to perfectly uniform
header-plus-one files is not modelled. -/
def parseAttempt (file : CSV) (skiprows : Nat) (nrows : Option Nat) :
    Option Table :=
  match file.drop skiprows with
  | [] => none
  | header :: data =>
    let w := header.length
    let data := match nrows with
      | some n => data.take n
      | none => data
    if data.any (fun r => w < r.length) then none
    else some ⟨header, data.map (padCells w)⟩

/-- Model of `pd.read_csv(path, header=None, dtype=str).fillna("")` used by
the fallback header scan: every row is kept as data, the column count is
the first row's width, wider rows are a tokenization error, and shorter
rows are padded with empty strings by `fillna("")`. -/
def parseHeaderNone (file : CSV) : Option (List (List String)) :=
  match file with
  | [] => none
  | r0 :: _ =>
    let w := r0.length
    if file.any (fun r => w < r.length) then none
    else some (file.map fun r => r ++ List.replicate (w - r.length) "")

/-- Outcome of a flexible CSV read: a located header row with the parsed,
header-normalized table; the `ValueError` raised when no attempt and no
fallback candidate works (`HeaderNotFound`); or a pandas parse error
propagating out of the uncaught fallback re-parse. -/
inductive ReadResult where
  | found (headerRow : Nat) (t : Table)
  | headerNotFound
  | parseError
  deriving DecidableEq, Repr

/-- Mandatory identifier-column check shared by both flexible readers:
`all(col in df.columns for col in [LEAD_ID_COL, LOAN_NO_COL])`. -/
def hasReqCols (t : Table) : Bool :=
  t.cols.contains LEAD_ID_COL && t.cols.contains LOAN_NO_COL

/-- The prioritized skip-row list `[0, 1, 2, 3, 5, 10]` tried by both
flexible readers in `src/logic.py`. -/
def SKIP_LIST : List Nat := [0, 1, 2, 3, 5, 10]

/-- One iteration of the skip-row loop: attempt the parse (an exception is
caught and turns into `none`, continuing the loop), normalize headers,
and keep the table only when the mandatory columns are present. -/
def tryAttempt (file : CSV) (nrows : Option Nat) (k : Nat) : Option Table :=
  match parseAttempt file k nrows with
  | none => none
  | some t =>
    if hasReqCols (normalize_headers t) then some (normalize_headers t)
    else none

/-- The fallback loop of both flexible readers: scan the header-less parse
for a row containing the raw cell `"LeadID"` or `"Lead ID"`, re-parse from
that row (this re-parse is not under a `try`, so a parse failure
propagates as `parseError`), and accept when the mandatory columns are
present, otherwise keep scanning. -/
def fallbackScan (file : CSV) (nrows : Option Nat) :
    List (Nat × List String) → ReadResult
  | [] => .headerNotFound
  | (i, row) :: rest =>
    if LEAD_ID_COL ∈ row ∨ "Lead ID" ∈ row then
      match parseAttempt file i nrows with
      | none => .parseError
      | some t =>
        if hasReqCols (normalize_headers t) then .found i (normalize_headers t)
        else fallbackScan file nrows rest
    else fallbackScan file nrows rest

/-- Shared body of `read_csv_flexible` and `read_full_csv_flexible` in
`src/logic.py`; the two Python functions are line-for-line identical
except that the first passes `nrows=20` to every parse. First pass: the
prioritized skip counts; fallback: scan a header-less parse for the
lead-identifier cell and re-parse there. -/
def flexibleRead (file : CSV) (nrows : Option Nat) : ReadResult :=
  match SKIP_LIST.findSome? (fun k => (tryAttempt file nrows k).map ((k, ·))) with
  | some (k, t) => .found k t
  | none =>
    match parseHeaderNone file with
    | none => .parseError
    | some rows => fallbackScan file nrows rows.enum

/-- The function `read_csv_flexible` of `src/logic.py`: bounded sample
read, `nrows=20` on every parse attempt. -/
def read_csv_flexible (file : CSV) : ReadResult := flexibleRead file (some 20)

/-- The function `read_full_csv_flexible` of `src/logic.py`: full read, no
row limit. -/
def read_full_csv_flexible (file : CSV) : ReadResult := flexibleRead file none

/-- Header row located by a flexible read, when it succeeded. -/
def headerRowOf : ReadResult → Option Nat
  | .found k _ => some k
  | _ => none

/-- Civil date to day count (days since 1970-01-01), the standard
days-from-civil computation; only used to give parsed dates a faithful
total order with day-difference arithmetic. -/
def daysFromCivil (y m d : Int) : Int :=
  let y := if m ≤ 2 then y - 1 else y
  let era := (if 0 ≤ y then y else y - 399) / 400
  let yoe := y - era * 400
  let mp := (m + 9) % 12
  let doy := (153 * mp + 2) / 5 + d - 1
  let doe := yoe * 365 + yoe / 4 - yoe / 100 + doy
  era * 146097 + doe - 719468

/-- Split a character list at every dash, keeping empty groups. -/
def splitDash : List Char → List (List Char)
  | [] => [[]]
  | c :: rest =>
    let r := splitDash rest
    if c = '-' then [] :: r
    else
      match r with
      | [] => [[c]]
      | g :: gs => (c :: g) :: gs

/-- Digits-only string to number, the numeric part of date parsing. -/
def digitsToNat? (cs : List Char) : Option Nat :=
  if cs ≠ [] ∧ cs.all Char.isDigit then
    some (cs.foldl (fun n c => n * 10 + (c.toNat - 48)) 0)
  else none

/-- Modelled from the spec: the external date parser
(`pd.to_datetime(..., errors="coerce")` in `src/logic.py`), which turns a
string into a calendar date and an unparsable value into null, never an
error. The model parses ISO `YYYY-MM-DD` strings to a day number and
coerces everything else to `none`. -/
def parseDate (s : String) : Option Int :=
  match splitDash s.data with
  | [ys, ms, ds] =>
    match digitsToNat? ys, digitsToNat? ms, digitsToNat? ds with
    | some y, some m, some d =>
      if 1 ≤ m ∧ m ≤ 12 ∧ 1 ≤ d ∧ d ≤ 31 then
        some (daysFromCivil (Int.ofNat y) (Int.ofNat m) (Int.ofNat d))
      else none
    | _, _, _ => none
  | _ => none

/-- Date parsing of a nullable cell: a null cell stays null (`NaN` is
coerced to `NaT`), otherwise the string is parsed with coercion. -/
def cellDate (c : Cell) : Option Int := c.bind parseDate

/-- Payment statuses assigned by `evaluate_payment_status_for_conn`. -/
inductive PaymentStatus where
  | NOT_COLLECTED
  | EARLY
  | ON_TIME
  | COOLING_PERIOD
  | LATE
  deriving DecidableEq, Repr

/-- Classification step of `evaluate_payment_status_for_conn`
(src/logic.py lines 253-261) for one joined row. A null collection date is
`NOT_COLLECTED`. With a null repayment date and a collected date, every
pandas comparison against `NaT` is false and `(collect - NaT).days` is
`nan`, so `nan <= GRACE_DAYS` is false and the row falls through to
`LATE`. -/
def classify (repay collect : Option Int) : PaymentStatus :=
  match collect with
  | none => .NOT_COLLECTED
  | some c =>
    match repay with
    | none => .LATE
    | some r =>
      if c < r then .EARLY
      else if c = r then .ON_TIME
      else if c - r ≤ GRACE_DAYS then .COOLING_PERIOD
      else .LATE

/-- One persisted row of the `queries` audit table: the identity token as
supplied by the caller, the lead identifier, both parsed dates, the
computed status and the configured display columns. -/
structure QRow where
  pan : String
  leadID : Cell
  repayDate : Option Int
  collectionDate : Option Int
  paymentStatus : PaymentStatus
  display : List (String × Cell)
  deriving DecidableEq, Repr

/-- One per-product sqlite database `{PRODUCT}.db`: the `disbursed` and
`collection` tables when they have been created, and the rows of the
append-only `queries` audit table. -/
structure Store where
  disbursed : Option Table
  collection : Option Table
  queries : List QRow
  deriving DecidableEq, Repr

/-- A freshly created product database: `sqlite3.connect` on a new path
yields a database with no tables. -/
def emptyStore : Store := ⟨none, none, []⟩

/-- The working directory of `{PRODUCT}.db` files: product code to store,
in discovery order of `list_product_dbs`. -/
abbrev Stores := List (String × Store)

/-- Store lookup by product code (first match). -/
def findStore : Stores → String → Option Store
  | [], _ => none
  | (q, s) :: rest, p => if q = p then some s else findStore rest p

/-- Store update by product code: replaces the first entry with that code,
or appends a new entry when the code is absent. -/
def setStore : Stores → String → Store → Stores
  | [], p, s => [(p, s)]
  | (q, t) :: rest, p, s =>
    if q = p then (p, s) :: rest else (q, t) :: setStore rest p s

/-- Errors raised by the evaluation path: the blank-token `ValueError` and
the sqlite/pandas errors for a missing table or column. -/
inductive EvalError where
  | emptyPan
  | noSuchTable (name : String)
  | noSuchColumn (name : String)
  deriving DecidableEq, Repr

/-- The pan column actually used in the SQL filter:
`TARGET_COLUMN.replace(" ", "")`. -/
def PAN_COL (cfg : Config) : String := pyRemoveSpaces cfg.target

/-- Column index lookup by name (first match), the positional access
behind `df[col]`. -/
def colIdx (cols : List String) (name : String) : Option Nat :=
  cols.findIdx? (· = name)

/-- Cell of a row at a column index; rows shorter than the header read as
null. -/
def cellAt (r : List Cell) (i : Nat) : Cell := r.getD i none

/-- The SQL `WHERE {pan_col} = ?` (or `LOWER(..) = LOWER(?)`) filter on one
row: a NULL cell never matches, otherwise equality is exact or
lowercased according to `CASE_SENSITIVE`. -/
def matchesPan (cfg : Config) (value : String) (i : Nat) (r : List Cell) :
    Bool :=
  match cellAt r i with
  | none => false
  | some v => if cfg.caseSensitive then v = value else pyLower v = pyLower value

/-- The column renaming applied to the disbursed frame:
`{LEAD_ID_COL: INT_LEAD_ID, REPAYMENT_DATE_COL: INT_REPAY_DATE}`. -/
def renameDis (c : String) : String :=
  if c = LEAD_ID_COL then INT_LEAD_ID
  else if c = REPAYMENT_DATE_COL then INT_REPAY_DATE
  else c

/-- The column renaming applied to the collection frame:
`{LEAD_ID_COL: INT_LEAD_ID, COLLECTION_DATE_COL: INT_COLLECTION_DATE}`. -/
def renameColl (c : String) : String :=
  if c = LEAD_ID_COL then INT_LEAD_ID
  else if c = COLLECTION_DATE_COL then INT_COLLECTION_DATE
  else c

/-- Normalized-then-renamed column list of the filtered disbursed frame. -/
def disCols (dt : Table) : List String :=
  (dt.cols.map normalizeHeader).map renameDis

/-- Normalized-then-renamed column list of the collection frame. -/
def collCols (ct : Table) : List String :=
  (ct.cols.map normalizeHeader).map renameColl

/-- Maximum of two nullable dates, ignoring nulls (`groupby(...).max()`
skips `NaT` and yields `NaT` only for an all-null group). -/
def maxDate : Option Int → Option Int → Option Int
  | none, b => b
  | some a, none => some a
  | some a, some b => some (max a b)

/-- Latest parsed collection date for one lead key: the `groupby` on
`__lead_id` followed by `max`, restricted to collection rows whose lead
cell equals the key (null keys are dropped by pandas `groupby`), reduced
ignoring nulls; no matching row (an unmatched left-join key) and an
all-null group both yield null. -/
def latestCollection (ct : Table) (cli ci : Nat) (k : String) : Option Int :=
  (ct.rows.filterMap fun r =>
      if cellAt r cli = some k then some (cellDate (cellAt r ci)) else none
    ).foldl maxDate none

/-- The function `evaluate_payment_status_for_conn` of `src/logic.py`:
filter `disbursed` by the identity token in SQL, aggregate `collection`
to the latest date per lead, left-join, classify, project the result rows
and append them (when non-empty) to the `queries` audit table. Returns
the produced rows together with the updated store. Display columns are
looked up in the renamed disbursed frame with `row.get`, absent columns
yielding null. -/
def evaluate_payment_status_for_conn (cfg : Config) (pan : String)
    (st : Store) : Except EvalError ((String × Nat × List QRow) × Store) :=
  if pyStrip pan = "" then .error .emptyPan
  else
    let value := pyStrip pan
    match st.disbursed with
    | none => .error (.noSuchTable "disbursed")
    | some dt =>
      match colIdx dt.cols (PAN_COL cfg) with
      | none => .error (.noSuchColumn (PAN_COL cfg))
      | some pi =>
        let selRows := dt.rows.filter (matchesPan cfg value pi)
        if selRows.isEmpty then .ok ((pan, 0, []), st)
        else
          match st.collection with
          | none => .error (.noSuchTable "collection")
          | some ct =>
            match colIdx (disCols dt) INT_REPAY_DATE with
            | none => .error (.noSuchColumn INT_REPAY_DATE)
            | some ri =>
              match colIdx (collCols ct) INT_COLLECTION_DATE with
              | none => .error (.noSuchColumn INT_COLLECTION_DATE)
              | some ci =>
                match colIdx (collCols ct) INT_LEAD_ID with
                | none => .error (.noSuchColumn INT_LEAD_ID)
                | some cli =>
                  match colIdx (disCols dt) INT_LEAD_ID with
                  | none => .error (.noSuchColumn INT_LEAD_ID)
                  | some dli =>
                    let rows := selRows.map fun r =>
                      let lead := cellAt r dli
                      let repay := cellDate (cellAt r ri)
                      let collect := lead.bind (latestCollection ct cli ci)
                      { pan := pan
                        leadID := lead
                        repayDate := repay
                        collectionDate := collect
                        paymentStatus := classify repay collect
                        display := cfg.display.map fun c =>
                          (c, (colIdx (disCols dt) c).bind fun j => cellAt r j) }
                    let st' :=
                      if rows.isEmpty then st
                      else { st with queries := st.queries ++ rows }
                    .ok ((pan, rows.length, rows), st')

/-- One federated result row: a reconciliation row tagged with its product
code under the extra `Product` column. -/
structure FRow where
  row : QRow
  product : String
  deriving DecidableEq, Repr

/-- The per-store loop of `evaluate_payment_across_all_products`: evaluate
each discovered store in order, tag each non-empty batch with its product
code, skip a store whose evaluation errors (leaving it unchanged), and
thread every store's updated state through. Returns the updated stores
and the concatenated tagged rows. -/
def evalAllLoop (cfg : Config) (pan : String) :
    Stores → Stores × List FRow
  | [] => ([], [])
  | (name, st) :: rest =>
    let (rest', rows') := evalAllLoop cfg pan rest
    match evaluate_payment_status_for_conn cfg pan st with
    | .ok ((_, _, rows), st') =>
      ((name, st') :: rest',
        (if rows.isEmpty then [] else rows.map ({ row := ·, product := name })) ++ rows')
    | .error _ => ((name, st) :: rest', rows')

/-- The function `evaluate_payment_across_all_products` of `src/logic.py`:
check the identity token for blankness before touching any store, then
run the engine over every discovered store, skipping failures, and
concatenate the tagged batches in discovery order. -/
def evaluate_payment_across_all_products (cfg : Config) (pan : String)
    (stores : Stores) : Stores × Except EvalError (String × Nat × List FRow) :=
  if pyStrip pan = "" then (stores, .error .emptyPan)
  else
    let (stores', rows) := evalAllLoop cfg pan stores
    (stores', .ok (pan, rows.length, rows))

/-- Errors raised along the ingestion path of `process_uploaded_files`:
the two read failures, the schema `KeyError` (carrying the file role and
the missing column list), the no-valid-loan-number `ValueError` and the
product mismatch `ValueError` carrying both derived codes. -/
inductive IngestError where
  | headerNotFound
  | parseError
  | missingColumns (which : String) (missing : List String)
  | noValidProductCode
  | productMismatch (disbursed collection : String)
  deriving DecidableEq, Repr

/-- Ingestion error corresponding to a failed flexible read. -/
def readErr : ReadResult → IngestError
  | .headerNotFound => .headerNotFound
  | _ => .parseError

/-- The required column set `REQUIRED_DISBURSED_COLS` of `src/logic.py`:
identity-token column, loan number, lead identifier, repayment date and
every configured display column. -/
def REQUIRED_DISBURSED_COLS (cfg : Config) : List String :=
  [cfg.target, LOAN_NO_COL, LEAD_ID_COL, REPAYMENT_DATE_COL] ++ cfg.display

/-- The required column set `REQUIRED_COLLECTION_COLS` of `src/logic.py`. -/
def REQUIRED_COLLECTION_COLS : List String :=
  [LOAN_NO_COL, LEAD_ID_COL, COLLECTION_DATE_COL]

/-- The function `validate_columns` of `src/logic.py`, returning the
missing column set `required - set(df.columns)`; the caller raises when
it is non-empty. -/
def validate_columns (t : Table) (required : List String) : List String :=
  required.filter (fun c => !(t.cols.contains c))

/-- The inner function `get_first_product` of `process_uploaded_files`:
scan the loan-number column, skipping nulls, and return the uppercased
first three characters of the first trimmed value of length at least 3;
`none` models the `ValueError("No valid Loan No found")`. -/
def get_first_product (t : Table) (col : String) : Option String :=
  match colIdx t.cols col with
  | none => none
  | some i =>
    t.rows.findSome? fun r =>
      match cellAt r i with
      | none => none
      | some v =>
        let clean := pyStrip v
        if clean ≠ "" ∧ 3 ≤ clean.length then some (pyUpper (pyTake clean 3))
        else none

/-- The pure validation prefix of `process_uploaded_files` (lines 152-171
of `src/logic.py`): sample-read both files, validate both schemas, derive
both product codes and enforce their equality. All of this happens before
any database is opened or written. -/
def ingestChecks (cfg : Config) (dis col : CSV) : Except IngestError String :=
  match read_csv_flexible dis with
  | .found _ t1 =>
    match read_csv_flexible col with
    | .found _ t2 =>
      match validate_columns t1 (REQUIRED_DISBURSED_COLS cfg) with
      | [] =>
        match validate_columns t2 REQUIRED_COLLECTION_COLS with
        | [] =>
          match get_first_product t1 LOAN_NO_COL with
          | some p1 =>
            match get_first_product t2 LOAN_NO_COL with
            | some p2 =>
              if p1 = p2 then .ok p1
              else .error (.productMismatch p1 p2)
            | none => .error .noValidProductCode
          | none => .error .noValidProductCode
        | m => .error (.missingColumns "Collection" m)
      | m => .error (.missingColumns "Disbursed" m)
    | r => .error (readErr r)
  | r => .error (readErr r)

/-- The `sqlite3.connect(db_path)` step of `process_uploaded_files`: when
no database exists for the product, connecting creates an empty one;
otherwise the directory is untouched. -/
def ensureStore (stores : Stores) (p : String) : Stores :=
  match findStore stores p with
  | some _ => stores
  | none => setStore stores p emptyStore

/-- The function `process_uploaded_files` of `src/logic.py`: after the
validation prefix succeeds with a product code, `sqlite3.connect` opens
the product database (creating an empty one when the file does not
exist), both files are fully read, and the full tables are written with
`to_sql(..., if_exists="replace")` — a wholesale replace of the
`disbursed` and `collection` tables, leaving `queries` untouched. The
updated directory state is returned alongside the outcome. -/
def process_uploaded_files (cfg : Config) (dis col : CSV) (stores : Stores) :
    Stores × Except IngestError String :=
  match ingestChecks cfg dis col with
  | .error e => (stores, .error e)
  | .ok p =>
    match read_full_csv_flexible dis with
    | .found _ fd =>
      match read_full_csv_flexible col with
      | .found _ fc =>
        (setStore (ensureStore stores p) p
          { (findStore stores p).getD emptyStore with
            disbursed := some fd, collection := some fc }, .ok p)
      | r => (ensureStore stores p, .error (readErr r))
    | r => (ensureStore stores p, .error (readErr r))

/-- Row count of the `disbursed` table of a product's store, when both
exist. -/
def disbursedCount (stores : Stores) (p : String) : Option Nat :=
  ((findStore stores p).bind Store.disbursed).map (·.rows.length)

/-- Row count of the `collection` table of a product's store, when both
exist. -/
def collectionCount (stores : Stores) (p : String) : Option Nat :=
  ((findStore stores p).bind Store.collection).map (·.rows.length)

/-- Trace of one `PaymentApp.run_sql_query` invocation (`src/app.py` lines
267-298): whether the ephemeral in-memory multi-store connection was
opened, whether it was closed before returning, and whether the call hit
the error handler. -/
structure SqlTrace where
  opened : Bool
  closed : Bool
  errored : Bool
  deriving DecidableEq, Repr

/-- The method `PaymentApp.run_sql_query` of `src/app.py`, abstracted over
the sqlite session: `sessionResult` stands for everything performed on
the opened connection (the `ATTACH` loop and `pd.read_sql_query`), an
external service that either yields a result table or raises. The Python
body opens the connection inside `try`, calls `conn.close()` only on the
straight-line path after the query succeeds, and has no `finally`: the
`except` handler shows the error and returns with the connection still
open. -/
def run_sql_query (raw : String) (sessionResult : Except String Table) :
    SqlTrace :=
  if pyStrip raw = "" then ⟨false, false, false⟩
  else
    match sessionResult with
    | .ok _ => ⟨true, true, false⟩
    | .error _ => ⟨true, false, true⟩

/-! Helper lemmas about the store directory. -/

theorem findStore_setStore_self (l : Stores) (p : String) (s : Store) :
    findStore (setStore l p s) p = some s := by
  induction l with
  | nil => simp [setStore, findStore]
  | cons hd tl ih =>
    obtain ⟨q, t⟩ := hd
    by_cases h : q = p
    · simp [setStore, findStore, h]
    · simp [setStore, findStore, h, ih]

theorem findStore_setStore_ne (l : Stores) (p q : String) (s : Store)
    (h : q ≠ p) : findStore (setStore l p s) q = findStore l q := by
  induction l with
  | nil => simp [setStore, findStore, Ne.symm h]
  | cons hd tl ih =>
    obtain ⟨a, b⟩ := hd
    by_cases ha : a = p
    · subst ha
      simp [setStore, findStore, Ne.symm h]
    · simp [setStore, findStore, ha, ih]

/-! Claim theorems. -/

/-- C4: for every joined row with a parsed repayment date, the engine
classifies a null collection date as `NOT_COLLECTED`, a collection date
strictly before the repayment date as `EARLY`, equal dates as `ON_TIME`,
a collection date later by at most `GRACE_DAYS = 3` days as
`COOLING_PERIOD`, and later by more than 3 days as `LATE`. -/
theorem classification_boundaries (r c : Int) :
    classify (some r) none = .NOT_COLLECTED
    ∧ (c < r → classify (some r) (some c) = .EARLY)
    ∧ (c = r → classify (some r) (some c) = .ON_TIME)
    ∧ (r < c → c - r ≤ GRACE_DAYS → classify (some r) (some c) = .COOLING_PERIOD)
    ∧ (r < c → GRACE_DAYS < c - r → classify (some r) (some c) = .LATE) := by
  refine ⟨rfl, ?_, ?_, ?_, ?_⟩
  · intro h
    simp [classify, h]
  · intro h
    simp [classify, h]
  · intro h1 h2
    have hne : ¬ c < r := by omega
    have hne2 : ¬ c = r := by omega
    simp [classify, hne, hne2, h2]
  · intro h1 h2
    have hne : ¬ c < r := by omega
    have hne2 : ¬ c = r := by omega
    have hne3 : ¬ c - r ≤ GRACE_DAYS := by
      simp only [GRACE_DAYS] at h2 ⊢
      omega
    simp [classify, hne, hne2, hne3]

/-- Witness for C4 at the spec's example dates around repayment date
2024-01-10. -/
theorem classification_boundaries_witness :
    classify (some (daysFromCivil 2024 1 10)) (some (daysFromCivil 2024 1 13))
        = .COOLING_PERIOD
    ∧ classify (some (daysFromCivil 2024 1 10)) (some (daysFromCivil 2024 1 14))
        = .LATE
    ∧ classify (some (daysFromCivil 2024 1 10)) (some (daysFromCivil 2024 1 10))
        = .ON_TIME
    ∧ classify (some (daysFromCivil 2024 1 10)) (some (daysFromCivil 2024 1 5))
        = .EARLY
    ∧ classify (some (daysFromCivil 2024 1 10)) none = .NOT_COLLECTED := by
  refine ⟨?_, ?_, ?_, ?_, ?_⟩
  · exact (classification_boundaries (daysFromCivil 2024 1 10)
      (daysFromCivil 2024 1 13)).2.2.2.1 (by decide) (by decide)
  · exact (classification_boundaries (daysFromCivil 2024 1 10)
      (daysFromCivil 2024 1 14)).2.2.2.2 (by decide) (by decide)
  · exact (classification_boundaries (daysFromCivil 2024 1 10)
      (daysFromCivil 2024 1 10)).2.2.1 (by decide)
  · exact (classification_boundaries (daysFromCivil 2024 1 10)
      (daysFromCivil 2024 1 5)).2.1 (by decide)
  · exact (classification_boundaries (daysFromCivil 2024 1 10) 0).1

/-- Success test for an `Except` outcome. -/
def isOk {ε α : Type} : Except ε α → Bool
  | .ok _ => true
  | .error _ => false

/-- C5: for every pair of stored disbursed and collection tables carrying
the schema columns the engine reads (identity token, lead identifier and
the two date columns), and for arbitrary cell contents — in particular
unparsable values in either date column, in every null/non-null
combination — the evaluation completes successfully: date parsing is
coercing, so malformed dates never abort the batch. -/
theorem malformed_dates_never_abort (cfg : Config) (pan : String) (st : Store)
    (dt ct : Table)
    (hpan : ¬ pyStrip pan = "")
    (hdt : st.disbursed = some dt)
    (hpi : (colIdx dt.cols (PAN_COL cfg)).isSome = true)
    (hct : st.collection = some ct)
    (hri : (colIdx (disCols dt) INT_REPAY_DATE).isSome = true)
    (hci : (colIdx (collCols ct) INT_COLLECTION_DATE).isSome = true)
    (hcli : (colIdx (collCols ct) INT_LEAD_ID).isSome = true)
    (hdli : (colIdx (disCols dt) INT_LEAD_ID).isSome = true) :
    isOk (evaluate_payment_status_for_conn cfg pan st) = true := by
  obtain ⟨pi, hpi⟩ := Option.isSome_iff_exists.mp hpi
  obtain ⟨ri, hri⟩ := Option.isSome_iff_exists.mp hri
  obtain ⟨ci, hci⟩ := Option.isSome_iff_exists.mp hci
  obtain ⟨cli, hcli⟩ := Option.isSome_iff_exists.mp hcli
  obtain ⟨dli, hdli⟩ := Option.isSome_iff_exists.mp hdli
  simp only [evaluate_payment_status_for_conn, hdt, hpi, hct, hri, hci, hcli,
    hdli, if_neg hpan]
  by_cases hsel :
      (dt.rows.filter (matchesPan cfg (pyStrip pan) pi)).isEmpty = true
  · rw [if_pos hsel]
    rfl
  · rw [if_neg hsel]
    rfl

/-- Config fixture used by concrete evaluation runs. -/
def cfgW : Config := ⟨"Pancard", true, []⟩

/-- Disbursed-table fixture whose repayment date is not a date. -/
def dtW : Table :=
  ⟨["LeadID", "LoanNo", "Pancard", "RepayDate"],
    [[some "L1", some "ABC123", some "P1", some "not a date"]]⟩

/-- Collection-table fixture whose collection date is null. -/
def ctW : Table :=
  ⟨["LeadID", "LoanNo", "CollectedDate"],
    [[some "L1", some "ABC456", none]]⟩

/-- Store fixture combining the two malformed-date tables. -/
def stW : Store := ⟨some dtW, some ctW, []⟩

/-- Witness for C5: a store whose repayment date is unparsable and whose
collection date is null still evaluates successfully. -/
theorem malformed_dates_never_abort_witness :
    isOk (evaluate_payment_status_for_conn cfgW "P1" stW) = true :=
  malformed_dates_never_abort cfgW "P1" stW dtW ctW (by decide) rfl
    (by decide) rfl (by decide) (by decide) (by decide) (by decide)

/-- C6: a blank (empty or whitespace-only) identity token is rejected with
the empty-token error before any store is opened, read or written: the
store directory is returned unchanged. -/
theorem blank_pan_rejected_before_stores (cfg : Config) (pan : String)
    (stores : Stores) (h : pyStrip pan = "") :
    evaluate_payment_across_all_products cfg pan stores =
      (stores, .error .emptyPan) := by
  simp [evaluate_payment_across_all_products, h]

/-- Witness for C6 at a whitespace-only token over a non-empty directory. -/
theorem blank_pan_rejected_before_stores_witness :
    evaluate_payment_across_all_products ⟨"Pancard", true, []⟩ "   "
        [("ABC", emptyStore)] =
      ([("ABC", emptyStore)], .error .emptyPan) :=
  blank_pan_rejected_before_stores ⟨"Pancard", true, []⟩ "   "
    [("ABC", emptyStore)] (by decide)

/-- C8: evaluation of `PaymentApp.run_sql_query` at a failing query. The
code opens the ephemeral multi-store connection and, when the session
raises (query-syntax or execution error), reaches the `except` handler
with no `finally`: the trace shows the connection opened but not closed,
so the session is not torn down on the error exit path, contradicting the
claim. -/
theorem run_sql_query_leaks_on_error :
    (run_sql_query "SELEC * FROM NBL.disbursed" (.error "syntax error")).opened
        = true
    ∧ (run_sql_query "SELEC * FROM NBL.disbursed" (.error "syntax error")).closed
        = false
    ∧ (run_sql_query "SELEC * FROM NBL.disbursed" (.ok ⟨[], []⟩)).closed
        = true := by
  exact ⟨rfl, rfl, rfl⟩

/-- Table carried by a successful flexible read. -/
def tableOf : ReadResult → Option Table
  | .found _ t => some t
  | _ => none

theorem findStore_ensureStore_ne (stores : Stores) (p q : String)
    (h : q ≠ p) : findStore (ensureStore stores p) q = findStore stores q := by
  unfold ensureStore
  cases hf : findStore stores p with
  | some s => rfl
  | none => exact findStore_setStore_ne _ _ _ _ h

/-- Inversion of a successful ingestion run: the validation prefix
succeeded with the product code, both full reads succeeded, and the
directory was updated by wholesale table replacement at that code. -/
theorem process_ok_elim {cfg : Config} {dis col : CSV}
    {stores stores' : Stores} {p : String}
    (h : process_uploaded_files cfg dis col stores = (stores', .ok p)) :
    ingestChecks cfg dis col = .ok p ∧
    ∃ kd fd kc fc,
      read_full_csv_flexible dis = .found kd fd ∧
      read_full_csv_flexible col = .found kc fc ∧
      stores' = setStore (ensureStore stores p) p
        { (findStore stores p).getD emptyStore with
          disbursed := some fd, collection := some fc } := by
  unfold process_uploaded_files at h
  cases hc : ingestChecks cfg dis col with
  | error e =>
    rw [hc] at h
    simp at h
  | ok q =>
    rw [hc] at h
    cases hfd : read_full_csv_flexible dis with
    | found kd fd =>
      rw [hfd] at h
      cases hfc : read_full_csv_flexible col with
      | found kc fc =>
        rw [hfc] at h
        simp only [Prod.mk.injEq, Except.ok.injEq] at h
        obtain ⟨h1, h2⟩ := h
        subst h2
        exact ⟨rfl, kd, fd, kc, fc, rfl, rfl, h1.symm⟩
      | headerNotFound =>
        rw [hfc] at h
        simp at h
      | parseError =>
        rw [hfc] at h
        simp at h
    | headerNotFound =>
      rw [hfd] at h
      simp at h
    | parseError =>
      rw [hfd] at h
      simp at h

/-- C1 (amended): a successful ingestion replaces the store's `disbursed`
and `collection` tables wholesale with the freshly read full tables — the
resulting tables are exactly the new batches as read, independently of
whatever was persisted before. -/
theorem ingest_replaces_tables (cfg : Config) (dis col : CSV)
    (stores stores' : Stores) (p : String)
    (h : process_uploaded_files cfg dis col stores = (stores', .ok p)) :
    (findStore stores' p).bind Store.disbursed
        = tableOf (read_full_csv_flexible dis)
    ∧ (findStore stores' p).bind Store.collection
        = tableOf (read_full_csv_flexible col) := by
  obtain ⟨-, kd, fd, kc, fc, hfd, hfc, hs⟩ := process_ok_elim h
  subst hs
  rw [hfd, hfc]
  rw [findStore_setStore_self]
  exact ⟨rfl, rfl⟩

/-- Config fixture for ingestion runs: `Pancard` target, case-sensitive,
no display columns. -/
def cfgX : Config := ⟨"Pancard", true, []⟩

/-- Disbursed CSV fixture: a clean header row and one data row with loan
number `ABC123`. -/
def disFileX : CSV :=
  [["LeadID", "LoanNo", "Pancard", "RepayDate"],
   ["L1", "ABC123", "P1", "2024-01-10"]]

/-- Collection CSV fixture agreeing on product `ABC`. -/
def colFileX : CSV :=
  [["LeadID", "LoanNo", "CollectedDate"],
   ["L1", "ABC456", "2024-01-12"]]

/-- A previously persisted disbursed row that the new batch does not
contain. -/
def oldRowX : List Cell :=
  [some "L9", some "ABC999", some "P9", some "2024-02-02"]

/-- Previously persisted disbursed table of the `ABC` store. -/
def oldDisX : Table :=
  ⟨["LeadID", "LoanNo", "Pancard", "RepayDate"], [oldRowX]⟩

/-- Previously persisted collection table of the `ABC` store. -/
def oldCollX : Table := ⟨["LeadID", "LoanNo", "CollectedDate"], []⟩

/-- Directory with an already-existing `ABC` store holding `oldRowX`. -/
def preStoresX : Stores := [("ABC", ⟨some oldDisX, some oldCollX, []⟩)]

/-- The disbursed table as the full read parses it from `disFileX`. -/
def newDisX : Table :=
  ⟨["LeadID", "LoanNo", "Pancard", "RepayDate"],
   [[some "L1", some "ABC123", some "P1", some "2024-01-10"]]⟩

/-- The collection table as the full read parses it from `colFileX`. -/
def newCollX : Table :=
  ⟨["LeadID", "LoanNo", "CollectedDate"],
   [[some "L1", some "ABC456", some "2024-01-12"]]⟩

/-- Counterexample to C1 as stated: ingesting into the existing `ABC`
store succeeds, yet the resulting disbursed table is exactly the new
batch and the previously persisted row `oldRowX` is gone — previously
persisted rows are not retained, because the code writes with
`if_exists="replace"` instead of merging. -/
theorem ingest_does_not_retain_previous_rows :
    (process_uploaded_files cfgX disFileX colFileX preStoresX).2 = .ok "ABC"
    ∧ findStore (process_uploaded_files cfgX disFileX colFileX preStoresX).1
        "ABC" = some ⟨some newDisX, some newCollX, []⟩
    ∧ oldRowX ∈ oldDisX.rows
    ∧ ¬ oldRowX ∈ newDisX.rows := by
  refine ⟨rfl, rfl, by decide, by decide⟩

/-- Witness for the amended C1 at the concrete fixture ingestion. -/
theorem ingest_replaces_tables_witness :
    (findStore [("ABC", Store.mk (some newDisX) (some newCollX) [])] "ABC").bind
        Store.disbursed = tableOf (read_full_csv_flexible disFileX)
    ∧ (findStore [("ABC", Store.mk (some newDisX) (some newCollX) [])] "ABC").bind
        Store.collection = tableOf (read_full_csv_flexible colFileX) :=
  ingest_replaces_tables cfgX disFileX colFileX preStoresX
    [("ABC", Store.mk (some newDisX) (some newCollX) [])] "ABC" rfl

/-- C2: re-ingesting the identical file pair into the directory produced
by a first successful ingestion succeeds with the same product code and
leaves the row counts of that product's `disbursed` and `collection`
tables unchanged: each run replaces the tables with the same full-read
batches. -/
theorem reingest_idempotent_rowcounts (cfg : Config) (dis col : CSV)
    (stores stores₁ : Stores) (p : String)
    (h : process_uploaded_files cfg dis col stores = (stores₁, .ok p)) :
    (process_uploaded_files cfg dis col stores₁).2 = .ok p
    ∧ disbursedCount (process_uploaded_files cfg dis col stores₁).1 p
        = disbursedCount stores₁ p
    ∧ collectionCount (process_uploaded_files cfg dis col stores₁).1 p
        = collectionCount stores₁ p := by
  obtain ⟨hc, kd, fd, kc, fc, hfd, hfc, hs⟩ := process_ok_elim h
  have h2 : process_uploaded_files cfg dis col stores₁ =
      (setStore (ensureStore stores₁ p) p
        { (findStore stores₁ p).getD emptyStore with
          disbursed := some fd, collection := some fc }, .ok p) := by
    simp only [process_uploaded_files, hc, hfd, hfc]
  have hfind : findStore stores₁ p =
      some { (findStore stores p).getD emptyStore with
             disbursed := some fd, collection := some fc } := by
    rw [hs]
    exact findStore_setStore_self _ _ _
  refine ⟨by rw [h2], ?_, ?_⟩
  · rw [h2]
    unfold disbursedCount
    rw [findStore_setStore_self, hfind]
    rfl
  · rw [h2]
    unfold collectionCount
    rw [findStore_setStore_self, hfind]
    rfl

/-- The directory produced by ingesting the fixture pair into an empty
working directory. -/
def postStoresX : Stores := [("ABC", ⟨some newDisX, some newCollX, []⟩)]

/-- Witness for C2: the fixture pair re-ingested over its own first run. -/
theorem reingest_idempotent_rowcounts_witness :
    (process_uploaded_files cfgX disFileX colFileX postStoresX).2 = .ok "ABC"
    ∧ disbursedCount (process_uploaded_files cfgX disFileX colFileX
        postStoresX).1 "ABC" = disbursedCount postStoresX "ABC"
    ∧ collectionCount (process_uploaded_files cfgX disFileX colFileX
        postStoresX).1 "ABC" = collectionCount postStoresX "ABC" :=
  reingest_idempotent_rowcounts cfgX disFileX colFileX [] postStoresX "ABC" rfl

/-- C3: when both sample reads and schema validations succeed and the two
derived product codes differ, ingestion fails with the product-mismatch
error carrying both codes, and the store directory is returned exactly as
it was: the mismatch check precedes `sqlite3.connect` and every write, so
no store is created or modified. -/
theorem product_mismatch_no_writes (cfg : Config) (dis col : CSV)
    (stores : Stores) (k1 k2 : Nat) (t1 t2 : Table) (p1 p2 : String)
    (h1 : read_csv_flexible dis = .found k1 t1)
    (h2 : read_csv_flexible col = .found k2 t2)
    (h3 : validate_columns t1 (REQUIRED_DISBURSED_COLS cfg) = [])
    (h4 : validate_columns t2 REQUIRED_COLLECTION_COLS = [])
    (h5 : get_first_product t1 LOAN_NO_COL = some p1)
    (h6 : get_first_product t2 LOAN_NO_COL = some p2)
    (hne : ¬ p1 = p2) :
    process_uploaded_files cfg dis col stores =
      (stores, .error (.productMismatch p1 p2)) := by
  have hic : ingestChecks cfg dis col = .error (.productMismatch p1 p2) := by
    simp only [ingestChecks, h1, h2, h3, h4, h5, h6, if_neg hne]
  simp only [process_uploaded_files, hic]

/-- Collection CSV fixture whose loan numbers derive product `XYZ`. -/
def colFileY : CSV :=
  [["LeadID", "LoanNo", "CollectedDate"],
   ["L1", "XYZ456", "2024-01-12"]]

/-- The collection table as the sample read parses it from `colFileY`. -/
def newCollY : Table :=
  ⟨["LeadID", "LoanNo", "CollectedDate"],
   [[some "L1", some "XYZ456", some "2024-01-12"]]⟩

/-- Witness for C3: the `ABC` disbursed fixture against the `XYZ`
collection fixture over a non-empty directory. -/
theorem product_mismatch_no_writes_witness :
    process_uploaded_files cfgX disFileX colFileY preStoresX =
      (preStoresX, .error (.productMismatch "ABC" "XYZ")) :=
  product_mismatch_no_writes cfgX disFileX colFileY preStoresX 0 0 newDisX
    newCollY "ABC" "XYZ" rfl rfl rfl rfl rfl rfl (by decide)

theorem setStore_filter_ne (l : Stores) (p : String) (s : Store) :
    (setStore l p s).filter (fun e => !(e.1 = p))
      = l.filter (fun e => !(e.1 = p)) := by
  induction l with
  | nil => simp [setStore]
  | cons hd tl ih =>
    obtain ⟨a, b⟩ := hd
    by_cases ha : a = p
    · subst ha
      simp [setStore]
    · simp [setStore, ha, ih]

theorem ensureStore_filter_ne (stores : Stores) (p : String) :
    (ensureStore stores p).filter (fun e => !(e.1 = p))
      = stores.filter (fun e => !(e.1 = p)) := by
  unfold ensureStore
  cases hf : findStore stores p with
  | some s => rfl
  | none => exact setStore_filter_ne _ _ _

/-- C10: a successful ingestion into an already-existing store writes only
the `disbursed` and `collection` tables: the `queries` audit rows of that
store are unchanged, and every other store of the directory is untouched
(stated as equality of the directories outside the ingested code). -/
theorem ingest_leaves_queries_unchanged (cfg : Config) (dis col : CSV)
    (stores stores' : Stores) (p : String) (s : Store)
    (h : process_uploaded_files cfg dis col stores = (stores', .ok p))
    (hs : findStore stores p = some s) :
    (findStore stores' p).map Store.queries = some s.queries
    ∧ stores'.filter (fun e => !(e.1 = p))
        = stores.filter (fun e => !(e.1 = p)) := by
  obtain ⟨-, kd, fd, kc, fc, hfd, hfc, heq⟩ := process_ok_elim h
  subst heq
  constructor
  · rw [findStore_setStore_self, hs]
    rfl
  · rw [setStore_filter_ne]
    exact ensureStore_filter_ne _ _

/-- Audit row fixture persisted before the ingestion run. -/
def qrowX : QRow := ⟨"P9", some "L9", none, none, .NOT_COLLECTED, []⟩

/-- Directory fixture with an `ABC` store carrying one audit row and an
unrelated `XYZ` store. -/
def preStores10 : Stores :=
  [("ABC", ⟨some oldDisX, some oldCollX, [qrowX]⟩), ("XYZ", ⟨none, none, []⟩)]

/-- Directory after re-ingesting the fixture pair into `preStores10`. -/
def postStores10 : Stores :=
  [("ABC", ⟨some newDisX, some newCollX, [qrowX]⟩), ("XYZ", ⟨none, none, []⟩)]

/-- Witness for C10: the fixture ingestion leaves the audit row and the
unrelated store untouched. -/
theorem ingest_leaves_queries_unchanged_witness :
    (findStore postStores10 "ABC").map Store.queries
        = some (Store.mk (some oldDisX) (some oldCollX) [qrowX]).queries
    ∧ postStores10.filter (fun e => !(e.1 = "ABC"))
        = preStores10.filter (fun e => !(e.1 = "ABC")) :=
  ingest_leaves_queries_unchanged cfgX disFileX colFileX preStores10
    postStores10 "ABC" (Store.mk (some oldDisX) (some oldCollX) [qrowX])
    rfl rfl

/-- Modelled from the spec: the declarative shape of the federated result —
one `Product`-tagged batch per discovered store whose evaluation succeeds
with a non-empty result, errors skipped, kept in store-discovery order. -/
def specTaggedBatches (cfg : Config) (pan : String) (stores : Stores) :
    List (List FRow) :=
  stores.filterMap fun e =>
    match evaluate_payment_status_for_conn cfg pan e.2 with
    | .ok ((_, _, rows), _) =>
      if rows.isEmpty then none
      else some (rows.map ({ row := ·, product := e.1 }))
    | .error _ => none

theorem evalAllLoop_rows (cfg : Config) (pan : String) (stores : Stores) :
    (evalAllLoop cfg pan stores).2
      = (specTaggedBatches cfg pan stores).flatten := by
  induction stores with
  | nil => rfl
  | cons hd tl ih =>
    obtain ⟨name, st⟩ := hd
    cases he : evaluate_payment_status_for_conn cfg pan st with
    | ok out =>
      obtain ⟨⟨pp, nn, rows⟩, st'⟩ := out
      by_cases hr : rows.isEmpty = true
      · have hr' : rows = [] := by simpa using hr
        have hL : (evalAllLoop cfg pan ((name, st) :: tl)).2
            = (evalAllLoop cfg pan tl).2 := by
          simp [evalAllLoop, he, hr']
        have hR : specTaggedBatches cfg pan ((name, st) :: tl)
            = specTaggedBatches cfg pan tl := by
          simp [specTaggedBatches, List.filterMap_cons, he, hr']
        rw [hL, hR]
        exact ih
      · have hr' : ¬ rows = [] := by simpa using hr
        have hL : (evalAllLoop cfg pan ((name, st) :: tl)).2
            = rows.map ({ row := ·, product := name })
                ++ (evalAllLoop cfg pan tl).2 := by
          simp [evalAllLoop, he, hr']
        have hR : specTaggedBatches cfg pan ((name, st) :: tl)
            = rows.map ({ row := ·, product := name })
                :: specTaggedBatches cfg pan tl := by
          simp [specTaggedBatches, List.filterMap_cons, he, hr']
        rw [hL, hR, List.flatten_cons, ih]
    | error e =>
      have hL : (evalAllLoop cfg pan ((name, st) :: tl)).2
          = (evalAllLoop cfg pan tl).2 := by
        simp [evalAllLoop, he]
      have hR : specTaggedBatches cfg pan ((name, st) :: tl)
          = specTaggedBatches cfg pan tl := by
        simp [specTaggedBatches, List.filterMap_cons, he]
      rw [hL, hR]
      exact ih

/-- C7: for every identity token that is not blank, the federated
evaluation always succeeds: it runs the engine against every discovered
store in order, skips (without aborting) every store whose evaluation
errors, tags each non-empty result batch with its product code, and
returns the concatenation of the tagged batches in store-discovery order
together with the per-store-updated directory. -/
theorem federated_eval_concat_skips_errors (cfg : Config) (pan : String)
    (stores : Stores) (hpan : ¬ pyStrip pan = "") :
    evaluate_payment_across_all_products cfg pan stores =
      ((evalAllLoop cfg pan stores).1,
        .ok (pan, (specTaggedBatches cfg pan stores).flatten.length,
          (specTaggedBatches cfg pan stores).flatten)) := by
  unfold evaluate_payment_across_all_products
  rw [if_neg hpan, ← evalAllLoop_rows]

/-- Federated fixture: a store that errors during evaluation (it has no
tables) ahead of a store that yields one matching row. -/
def fedStores : Stores := [("BAD", emptyStore), ("ABC", stW)]

/-- Witness for C7: the erroring store is skipped and the non-empty batch
of the healthy store is tagged and returned. -/
theorem federated_eval_concat_skips_errors_witness :
    evaluate_payment_across_all_products cfgW "P1" fedStores =
      ((evalAllLoop cfgW "P1" fedStores).1,
        .ok ("P1", (specTaggedBatches cfgW "P1" fedStores).flatten.length,
          (specTaggedBatches cfgW "P1" fedStores).flatten)) :=
  federated_eval_concat_skips_errors cfgW "P1" fedStores (by decide)

theorem option_none_of_isSome_eq {α β : Type} {o1 : Option α} {o2 : Option β}
    (h : o1.isSome = o2.isSome) (h1 : o1 = none) : o2 = none := by
  subst h1
  cases o2 with
  | none => rfl
  | some b => simp at h

theorem ifCols {c : Bool} {a : List String} {rows : List (List Cell)}
    {t : Table} (h : (if c = true then none else some (Table.mk a rows))
      = some t) : t.cols = a := by
  by_cases hc : c = true
  · rw [if_pos hc] at h
    exact Option.noConfusion h
  · rw [if_neg hc] at h
    injection h with h'
    rw [← h']

theorem parseAttempt_cols {file : CSV} {k : Nat} {nr : Option Nat} {t : Table}
    (h : parseAttempt file k nr = some t) :
    ∃ hd tl, file.drop k = hd :: tl ∧ t.cols = hd := by
  unfold parseAttempt at h
  cases hdrop : file.drop k with
  | nil =>
    rw [hdrop] at h
    exact Option.noConfusion h
  | cons a l =>
    rw [hdrop] at h
    exact ⟨a, l, rfl, ifCols h⟩

theorem tryAttempt_isSome_eq (file : CSV)
    (H : ∀ k, (parseAttempt file k (some 20)).isSome
        = (parseAttempt file k none).isSome) (k : Nat) :
    (tryAttempt file (some 20) k).isSome = (tryAttempt file none k).isSome := by
  cases h1 : parseAttempt file k (some 20) with
  | none =>
    have h2 : parseAttempt file k none = none :=
      option_none_of_isSome_eq (H k) h1
    simp [tryAttempt, h1, h2]
  | some t1 =>
    have hs : (parseAttempt file k none).isSome = true := by
      rw [← H k, h1]
      rfl
    obtain ⟨t2, h2⟩ := Option.isSome_iff_exists.mp hs
    obtain ⟨a1, l1, hd1, hc1⟩ := parseAttempt_cols h1
    obtain ⟨a2, l2, hd2, hc2⟩ := parseAttempt_cols h2
    rw [hd1] at hd2
    injection hd2 with e1 e2
    have hreq : hasReqCols (normalize_headers t1)
        = hasReqCols (normalize_headers t2) := by
      have hcols : t1.cols = t2.cols := by
        rw [hc1, hc2]
        exact e1
      simp [hasReqCols, normalize_headers, hcols]
    by_cases hr : hasReqCols (normalize_headers t1) = true
    · have hr2 := hr
      rw [hreq] at hr2
      simp [tryAttempt, h1, h2, hr, hr2]
    · have hr2 := hr
      rw [hreq] at hr2
      simp [tryAttempt, h1, h2, hr, hr2]

theorem findSome?_attempt_agree (f g : Nat → Option Table)
    (hfg : ∀ k, (f k).isSome = (g k).isSome) (L : List Nat) :
    Option.map Prod.fst (L.findSome? fun k => (f k).map ((k, ·)))
      = Option.map Prod.fst (L.findSome? fun k => (g k).map ((k, ·)))
    ∧ (L.findSome? fun k => (f k).map ((k, ·))).isSome
      = (L.findSome? fun k => (g k).map ((k, ·))).isSome := by
  induction L with
  | nil => exact ⟨rfl, rfl⟩
  | cons k L ih =>
    cases h1 : f k with
    | none =>
      have h2 : g k = none := option_none_of_isSome_eq (hfg k) h1
      simpa [List.findSome?, h1, h2] using ih
    | some t1 =>
      have hs : (g k).isSome = true := by
        rw [← hfg k, h1]
        rfl
      obtain ⟨t2, h2⟩ := Option.isSome_iff_exists.mp hs
      simp [List.findSome?, h1, h2]

theorem fallbackScan_agree (file : CSV)
    (H : ∀ k, (parseAttempt file k (some 20)).isSome
        = (parseAttempt file k none).isSome)
    (cands : List (Nat × List String)) :
    headerRowOf (fallbackScan file (some 20) cands)
        = headerRowOf (fallbackScan file none cands)
    ∧ (fallbackScan file (some 20) cands = .headerNotFound
        ↔ fallbackScan file none cands = .headerNotFound)
    ∧ (fallbackScan file (some 20) cands = .parseError
        ↔ fallbackScan file none cands = .parseError) := by
  induction cands with
  | nil => exact ⟨rfl, Iff.rfl, Iff.rfl⟩
  | cons c rest ih =>
    obtain ⟨i, row⟩ := c
    by_cases hcond : LEAD_ID_COL ∈ row ∨ "Lead ID" ∈ row
    · cases h1 : parseAttempt file i (some 20) with
      | none =>
        have h2 : parseAttempt file i none = none :=
          option_none_of_isSome_eq (H i) h1
        simp [fallbackScan, hcond, h1, h2]
      | some t1 =>
        have hs : (parseAttempt file i none).isSome = true := by
          rw [← H i, h1]
          rfl
        obtain ⟨t2, h2⟩ := Option.isSome_iff_exists.mp hs
        obtain ⟨a1, l1, hd1, hc1⟩ := parseAttempt_cols h1
        obtain ⟨a2, l2, hd2, hc2⟩ := parseAttempt_cols h2
        rw [hd1] at hd2
        injection hd2 with e1 e2
        have hreq : hasReqCols (normalize_headers t1)
            = hasReqCols (normalize_headers t2) := by
          have hcols : t1.cols = t2.cols := by
            rw [hc1, hc2]
            exact e1
          simp [hasReqCols, normalize_headers, hcols]
        by_cases hr : hasReqCols (normalize_headers t1) = true
        · have hr2 := hr
          rw [hreq] at hr2
          simp [fallbackScan, hcond, h1, h2, hr, hr2, headerRowOf]
        · have hr2 := hr
          rw [hreq] at hr2
          simpa [fallbackScan, hcond, h1, h2, hr, hr2] using ih
    · simpa [fallbackScan, hcond] using ih

/-- C9 (amended): whenever each candidate parse attempt succeeds on the
bounded 20-row sample exactly when it succeeds on the full file — in
particular for any file whose rows beyond the sample window keep every
attempted parse's success unchanged — the two flexible readers locate the
header at the same row, and one fails with the header-not-found error
(respectively a propagated parse error) exactly when the other does. -/
theorem sample_and_full_read_agree (file : CSV)
    (H : ∀ k, (parseAttempt file k (some 20)).isSome
        = (parseAttempt file k none).isSome) :
    headerRowOf (read_csv_flexible file)
        = headerRowOf (read_full_csv_flexible file)
    ∧ (read_csv_flexible file = .headerNotFound
        ↔ read_full_csv_flexible file = .headerNotFound)
    ∧ (read_csv_flexible file = .parseError
        ↔ read_full_csv_flexible file = .parseError) := by
  have Ht := tryAttempt_isSome_eq file H
  obtain ⟨hmap, hsome⟩ := findSome?_attempt_agree
    (tryAttempt file (some 20)) (tryAttempt file none) Ht SKIP_LIST
  unfold read_csv_flexible read_full_csv_flexible flexibleRead
  cases hS : SKIP_LIST.findSome?
      (fun k => (tryAttempt file (some 20) k).map ((k, ·))) with
  | some kt =>
    have hF' : (SKIP_LIST.findSome?
        fun k => (tryAttempt file none k).map ((k, ·))).isSome = true := by
      rw [← hsome, hS]
      rfl
    obtain ⟨kt2, hF⟩ := Option.isSome_iff_exists.mp hF'
    rw [hS, hF] at hmap
    obtain ⟨k1, t1⟩ := kt
    obtain ⟨k2, t2⟩ := kt2
    simp at hmap
    subst hmap
    rw [hF]
    simp [headerRowOf]
  | none =>
    have hF : (SKIP_LIST.findSome?
        fun k => (tryAttempt file none k).map ((k, ·))) = none :=
      option_none_of_isSome_eq hsome hS
    rw [hF]
    cases hP : parseHeaderNone file with
    | none => exact ⟨rfl, Iff.rfl, Iff.rfl⟩
    | some rows => exact fallbackScan_agree file H rows.enum

/-- Rectangular two-row file on which sample and full read trivially
agree. -/
def simpleFile : CSV := [["LeadID", "LoanNo"], ["a", "b"]]

/-- Witness for the amended C9 on a rectangular file: every parse attempt
succeeds on the sample exactly when it succeeds on the full read. -/
theorem sample_and_full_read_agree_witness :
    headerRowOf (read_csv_flexible simpleFile)
        = headerRowOf (read_full_csv_flexible simpleFile)
    ∧ (read_csv_flexible simpleFile = .headerNotFound
        ↔ read_full_csv_flexible simpleFile = .headerNotFound)
    ∧ (read_csv_flexible simpleFile = .parseError
        ↔ read_full_csv_flexible simpleFile = .parseError) :=
  sample_and_full_read_agree simpleFile (by
    intro k
    match k with
    | 0 => rfl
    | 1 => rfl
    | (n + 2) =>
      have hd : simpleFile.drop (n + 2) = [] := by
        apply List.drop_eq_nil_of_le
        simp [simpleFile]
      have h20 : parseAttempt simpleFile (n + 2) (some 20) = none := by
        simp [parseAttempt, hd]
      have hfull : parseAttempt simpleFile (n + 2) none = none := by
        simp [parseAttempt, hd]
      rw [h20, hfull])

/-- File on which the two readers genuinely disagree: a wide metadata row,
the real header at row 1 whose lead cell carries a leading space, twenty
three clean data rows, and one over-wide trailing row beyond the 20-row
sample window whose cells spell out the mandatory column names. -/
def c9file : CSV :=
  [["m", "m", "m", "m"], [" LeadID", "LoanNo"]]
    ++ List.replicate 23 ["a", "b"]
    ++ [["LeadID", "LoanNo", "x"]]

/-- Counterexample to C9 as stated: on `c9file` both reads succeed, yet
the sample read locates the header at row 1 while the full read — whose
parse attempt at row 1 fails on the over-wide row 25 outside the sample
window — falls back and locates it at row 25. -/
theorem sample_and_full_can_disagree :
    read_csv_flexible c9file
        = .found 1 ⟨["LeadID", "LoanNo"], List.replicate 20 [some "a", some "b"]⟩
    ∧ read_full_csv_flexible c9file = .found 25 ⟨["LeadID", "LoanNo", "x"], []⟩
    ∧ ¬ headerRowOf (read_csv_flexible c9file)
        = headerRowOf (read_full_csv_flexible c9file) := by
  refine ⟨by decide, by decide, by decide⟩

end DataHarbour
